import Mathlib

/-!
Shallow embedding of the `rust-webicon` crate (src/lib.rs, src/strategies.rs,
src/util.rs): a scraper that discovers candidate site icons for a web page,
resolves their pixel dimensions over HTTP, and exposes a size-sorted
collection with `largest` and `at_least` queries.

Modelling conventions:
* Machine integers (`u32`) are `Nat`; where the source multiplies two `u32`
  values the model reduces the product modulo `2 ^ 32` (release-mode wrapping
  semantics).
* Fallible operations return `Option` / `Except`; a Rust `panic!` / `unwrap()`
  failure is modelled as `none` of an `Option` result.
* External collaborator crates (reqwest HTTP transport, the `mime` string
  parser, the `image` decoder, `url` joining, and the html5ever/scraper DOM)
  are capability parameters collected in an `Env` record. A parsed document
  (`Html`) is abstracted to the list of elements matched by the CSS selector
  `link[rel*=icon]`, in document order, each carrying its `href` and `sizes`
  attributes; this is the only view of the DOM the source code uses.
* Rust's `Vec::sort_by` is a stable sort; a stable sort's output is uniquely
  determined by the comparator and the input order, so it is modelled by
  `List.insertionSort` (stable and structurally recursive).
-/

/-- URLs are abstract identifiers; the `url` crate is an external collaborator. -/
abbrev Url := String

/-- Model of `mime::Mime`: top-level type, subtype and parameters, normalised
to lower case (the `mime` crate compares case-insensitively). -/
structure Mime where
  top : String
  sub : String
  params : List (String × String)
deriving DecidableEq

/-- The `mime::IMAGE_PNG` constant. -/
def IMAGE_PNG : Mime := { top := "image", sub := "png", params := [] }

/-- The `mime::IMAGE_JPEG` constant. -/
def IMAGE_JPEG : Mime := { top := "image", sub := "jpeg", params := [] }

/-- The `mime::IMAGE_GIF` constant. -/
def IMAGE_GIF : Mime := { top := "image", sub := "gif", params := [] }

/-- The canonical icon type `Mime::from_str("image/x-icon").unwrap()`
built in `util.rs`. -/
def mimeXIcon : Mime := { top := "image", sub := "x-icon", params := [] }

/-- Model of `image::ImageFormat` restricted to the variants `util.rs` uses. -/
inductive ImageFormat where
  | Png
  | Jpeg
  | Gif
  | Ico
deriving DecidableEq

/-- Embedding of `AsImageFormat::parse_image_format` (src/util.rs lines 12-27):
PNG/JPEG/GIF by equality with the `mime` constants, then any subtype
`x-icon` or `vnd.microsoft.icon` canonicalised to `image/x-icon` + ICO. -/
def Mime.parse_image_format (m : Mime) : Option (Mime × ImageFormat) :=
  if m = IMAGE_PNG then some (m, ImageFormat.Png)
  else if m = IMAGE_JPEG then some (m, ImageFormat.Jpeg)
  else if m = IMAGE_GIF then some (m, ImageFormat.Gif)
  else if m.sub = "x-icon" ∨ m.sub = "vnd.microsoft.icon" then
    some (mimeXIcon, ImageFormat.Ico)
  else none

/-- Model of Rust `str::split(c)`: substrings between occurrences of `c`,
keeping empty tokens (so the empty string yields one empty token). -/
def splitChar (c : Char) : List Char → List (List Char)
  | [] => [[]]
  | a :: rest =>
    let r := splitChar c rest
    if a = c then [] :: r
    else
      match r with
      | t :: ts => (a :: t) :: ts
      | [] => [[a]]

/-- Model of Rust `u32::from_str`: optional leading plus sign, then one or
more ASCII decimal digits, rejecting values that overflow `u32`. -/
def parse_u32 (cs : List Char) : Option Nat :=
  let ds := match cs with
    | '+' :: rest => rest
    | l => l
  if ds ≠ [] ∧ ds.all (fun c => c.isDigit) then
    let n := ds.foldl (fun acc c => acc * 10 + (c.toNat - 48)) 0
    if n < 2 ^ 32 then some n else none
  else none

/-- Embedding of the `sizes` attribute handling of
`LinkRelStrategy::get_guesses` (src/strategies.rs lines 42-52): split the
value on the character `x`, keep only the tokens that parse as `u32`
(`filter_map`), and take the first two parsed values; if fewer than two
tokens parse, both dimensions stay absent. -/
def parse_sizes (s : String) : Option Nat × Option Nat :=
  match (splitChar 'x' s.data).filterMap parse_u32 with
  | x :: y :: _ => (some x, some y)
  | _ => (none, none)

/-- Reading of the claim under test for the sizes attribute, following the
spec's words: parse the first two tokens themselves as unsigned integers,
and set both dimensions exactly when both of those first two tokens parse. -/
def parse_sizes_claim (s : String) : Option Nat × Option Nat :=
  match splitChar 'x' s.data with
  | t1 :: t2 :: _ =>
    match parse_u32 t1, parse_u32 t2 with
    | some x, some y => (some x, some y)
    | _, _ => (none, none)
  | _ => (none, none)

/-- Embedding of `struct Icon` (src/lib.rs lines 117-124). Bytes are `Nat`
lists. -/
structure Icon where
  url : Url
  raw : Option (List Nat)
  mime_type : Option Mime
  width : Option Nat
  height : Option Nat
deriving DecidableEq

/-- Embedding of `Icon::from_url` (src/lib.rs lines 127-135). -/
def Icon.from_url (url : Url) : Icon :=
  { url := url, raw := none, mime_type := none, width := none, height := none }

/-- The sort key of `IconCollection::from_raw` (src/lib.rs line 87):
`a.width.unwrap() * a.height.unwrap()` as a `u32` product, i.e. the product
reduced modulo `2 ^ 32` (`Option.getD 0` stands for `unwrap`, whose panic on
`none` is excluded by the collection precondition that both dimensions are
present). -/
def iconKey (i : Icon) : Nat :=
  (i.width.getD 0 * i.height.getD 0) % 2 ^ 32

/-- The mathematical (unbounded) area of an icon, used to compare the `u32`
sort key of the source against true area. -/
def trueArea (i : Icon) : Nat :=
  i.width.getD 0 * i.height.getD 0

/-- Model of a `reqwest::Response` as the source consumes it: success flag of
`status()`, raw `Content-Type` header bytes if present, the body bytes
(`none` when reading the body fails in `response.bytes()`), and the result of
`response.text()` (`none` when the body cannot be decoded as text). -/
structure Response where
  statusSuccess : Bool
  contentType : Option (List Nat)
  body : Option (List Nat)
  text : Option String
deriving DecidableEq

/-- The error kinds `Icon::fetch` can produce (src/errors via error_chain):
transport covers reqwest errors propagated by the question-mark operator. -/
inductive FetchError where
  | transport
  | badStatusCode
  | noContentType
  | badContentType
  | decodeError
deriving DecidableEq

instance : DecidableEq (Except FetchError Unit) := fun x y =>
  match x, y with
  | Except.ok (), Except.ok () => isTrue rfl
  | Except.error a, Except.error b =>
    if h : a = b then isTrue (by rw [h])
    else isFalse (fun hc => h (Except.error.inj hc))
  | Except.ok _, Except.error _ => isFalse (fun hc => Except.noConfusion hc)
  | Except.error _, Except.ok _ => isFalse (fun hc => Except.noConfusion hc)

/-- Model of `http::HeaderValue::to_str`: succeeds exactly when every byte is
visible ASCII (32..=126) or horizontal tab. -/
def header_to_str (bytes : List Nat) : Option String :=
  if bytes.all (fun b => decide (b = 9 ∨ (32 ≤ b ∧ b ≤ 126))) then
    some (String.mk (bytes.map Char.ofNat))
  else none

/-- One element matched by the selector `link[rel*=icon]`, reduced to the two
attributes the source reads. -/
structure Element where
  href : Option String
  sizes : Option String
deriving DecidableEq

/-- A parsed document, abstracted to its selector matches in document order. -/
abbrev Html := List Element

/-- The external collaborator capabilities: HTTP GET (`none` is a transport
error), DOM parsing + selector matching, the `mime` string parser, the
`image` decoder (bytes + declared format to pixel width/height), and `url`
joining (`none` is a join error). -/
structure Env where
  get : Url → Option Response
  parseDoc : String → Html
  mimeFromStr : String → Option Mime
  decode : List Nat → ImageFormat → Option (Nat × Nat)
  join : Url → String → Option Url

/-- Embedding of `Icon::fetch` (src/lib.rs lines 137-174): short-circuit when
`raw` is populated, then GET, status check, content-type extraction
(missing header or non-string bytes give `NoContentType`; a string that the
mime parser rejects gives `BadContentType`), image-format recognition, body
read, decode, and finally the atomic field update. Returns the updated icon
together with the `Result`. -/
def Icon.fetch (env : Env) (i : Icon) : Icon × Except FetchError Unit :=
  if i.raw.isSome then (i, Except.ok ())
  else
    match env.get i.url with
    | none => (i, Except.error FetchError.transport)
    | some response =>
      if ¬ response.statusSuccess then (i, Except.error FetchError.badStatusCode)
      else
        match response.contentType with
        | none => (i, Except.error FetchError.noContentType)
        | some headerBytes =>
          match header_to_str headerBytes with
          | none => (i, Except.error FetchError.noContentType)
          | some s =>
            match env.mimeFromStr s with
            | none => (i, Except.error FetchError.badContentType)
            | some mime_type =>
              match mime_type.parse_image_format with
              | none => (i, Except.error FetchError.badContentType)
              | some (better_mime_type, image_format) =>
                match response.body with
                | none => (i, Except.error FetchError.transport)
                | some bytes =>
                  match env.decode bytes image_format with
                  | none => (i, Except.error FetchError.decodeError)
                  | some (w, h) =>
                    ({ i with
                        width := some w,
                        height := some h,
                        raw := some bytes,
                        mime_type := some better_mime_type },
                      Except.ok ())

/-- Embedding of `Icon::fetch_dimensions` (src/lib.rs lines 176-181): a no-op
success when both dimensions are present, otherwise delegate to `fetch`. -/
def Icon.fetch_dimensions (env : Env) (i : Icon) : Icon × Except FetchError Unit :=
  match i.width, i.height with
  | some _, some _ => (i, Except.ok ())
  | _, _ => Icon.fetch env i

/-- Embedding of `struct IconScraper` (src/lib.rs lines 23-26). -/
structure IconScraper where
  document_url : Url
  dom : Option Html
deriving DecidableEq

/-- Embedding of `IconScraper::from_http` (src/lib.rs lines 29-43). The
source unwraps the `reqwest::get` result, so a transport failure panics
(modelled by `none`); only a failing `.text()` call is absorbed by `.ok()`
and leaves the DOM absent. `Html::parse_document` itself never fails. -/
def IconScraper.from_http (env : Env) (url : Url) : Option IconScraper :=
  match env.get url with
  | none => none
  | some response =>
    some { document_url := url, dom := response.text.map env.parseDoc }

/-- Embedding of `LinkRelStrategy::get_guesses` (src/strategies.rs
lines 23-64): with no DOM return no guesses; otherwise walk the selector
matches, skipping elements without `href` and elements whose `href` does not
join against the document URL, and build an icon whose dimensions come from
`parse_sizes` of the `sizes` attribute (empty string when absent). -/
def LinkRelStrategy.get_guesses (env : Env) (s : IconScraper) : List Icon :=
  match s.dom with
  | none => []
  | some elems =>
    elems.filterMap (fun e =>
      match e.href with
      | none => none
      | some href =>
        match env.join s.document_url href with
        | none => none
        | some icon_url =>
          let xy := parse_sizes (e.sizes.getD "")
          some { url := icon_url, raw := none, mime_type := none,
                 width := xy.1, height := xy.2 })

/-- Embedding of `DefaultFaviconPathStrategy::get_guesses` (src/strategies.rs
lines 15-20): one icon at `document_url.join("/favicon.ico").unwrap()`; the
unwrap means a join failure panics (`none`). -/
def DefaultFaviconPathStrategy.get_guesses (env : Env) (s : IconScraper) :
    Option (List Icon) :=
  match env.join s.document_url "/favicon.ico" with
  | none => none
  | some fav => some [Icon.from_url fav]

/-- Embedding of `struct IconCollection` (src/lib.rs lines 80-82). -/
structure IconCollection where
  icons : List Icon
deriving DecidableEq

/-- Embedding of `IconCollection::from_raw` (src/lib.rs lines 85-90): stable
sort ascending by the `u32` area key. -/
def IconCollection.from_raw (icons : List Icon) : IconCollection :=
  { icons := List.insertionSort (fun a b => iconKey a ≤ iconKey b) icons }

/-- Embedding of `IconCollection::at_least` (src/lib.rs lines 96-103):
pop the last (largest) icon, skip the remaining icons while one of the two
dimensions is below the bound, take the next one, falling back to the popped
icon. -/
def IconCollection.at_least (c : IconCollection) (width height : Nat) : Option Icon :=
  let largest := c.icons.getLast?
  ((c.icons.dropLast.dropWhile
      (fun i => decide (i.width.getD 0 < width ∨ i.height.getD 0 < height))).head?).or
    largest

/-- Embedding of `IconCollection::largest` (src/lib.rs lines 106-108):
`Vec::pop`, i.e. the last element of the sorted list. -/
def IconCollection.largest (c : IconCollection) : Option Icon :=
  c.icons.getLast?

/-- Embedding of `IconCollection::into_raw_parts` (src/lib.rs lines 112-114). -/
def IconCollection.into_raw_parts (c : IconCollection) : List Icon :=
  c.icons

/-- Embedding of `IconScraper::fetch_icons` (src/lib.rs lines 52-77): chain
the link-rel guesses with the default-favicon guess (whose construction can
panic on a join failure, propagated as `none`), resolve every candidate with
`fetch_dimensions` (the concurrent join preserves candidate order), keep the
successfully resolved icons, and build the sorted collection. -/
def IconScraper.fetch_icons (env : Env) (s : IconScraper) : Option IconCollection :=
  match DefaultFaviconPathStrategy.get_guesses env s with
  | none => none
  | some defaults =>
    let candidates := LinkRelStrategy.get_guesses env s ++ defaults
    let icons := candidates.filterMap (fun i =>
      match Icon.fetch_dimensions env i with
      | (j, Except.ok _) => some j
      | (_, Except.error _) => none)
    some (IconCollection.from_raw icons)

/-! ### Helper lemmas and concrete fixtures -/

theorem head?_dropWhile {α : Type} (p : α → Bool) (l : List α) :
    (l.dropWhile p).head? = l.find? (fun a => !p a) := by
  induction l with
  | nil => rfl
  | cons a t ih =>
    by_cases h : p a
    · simp [List.dropWhile_cons, List.find?_cons, h, ih]
    · simp [List.dropWhile_cons, List.find?_cons, h]

theorem find?_append_singleton_or {α : Type} (q : α → Bool) (init : List α) (b : α) :
    ((init ++ [b]).find? q).or (some b) = (init.find? q).or (some b) := by
  rw [List.find?_append, Option.or_assoc]
  congr 1
  cases hq : q b <;> simp [List.find?, hq]

theorem find?_dropLast_or {α : Type} (q : α → Bool) (l : List α) :
    (l.dropLast.find? q).or l.getLast? = (l.find? q).or l.getLast? := by
  rcases List.eq_nil_or_concat l with rfl | ⟨init, b, rfl⟩
  · rfl
  · rw [List.concat_eq_append, List.dropLast_concat, List.getLast?_concat,
      find?_append_singleton_or]

theorem pairwise_rel_getLast? {α : Type} {R : α → α → Prop} (hrefl : ∀ a, R a a) :
    ∀ (l : List α) (m : α), l.Pairwise R → l.getLast? = some m → ∀ a ∈ l, R a m := by
  intro l
  induction l with
  | nil => intro m _ h; simp at h
  | cons b t ih =>
    intro m hp hl a ha
    cases t with
    | nil =>
      simp only [List.getLast?_singleton, Option.some.injEq] at hl
      simp only [List.mem_singleton] at ha
      subst hl; subst ha
      exact hrefl a
    | cons c t2 =>
      rw [List.getLast?_cons_cons] at hl
      rcases List.mem_cons.mp ha with rfl | ha2
      · exact (List.pairwise_cons.mp hp).1 m (List.mem_of_mem_getLast? (hl ▸ rfl))
      · exact ih m (List.pairwise_cons.mp hp).2 hl a ha2

theorem parse_sizes_both (s : String) :
    (parse_sizes s).1.isSome ↔ (parse_sizes s).2.isSome := by
  unfold parse_sizes
  cases h : (splitChar 'x' s.data).filterMap parse_u32 with
  | nil => simp
  | cons x t => cases t <;> simp

instance : IsTotal Icon (fun a b => iconKey a ≤ iconKey b) :=
  ⟨fun a b => Nat.le_total (iconKey a) (iconKey b)⟩

instance : IsTrans Icon (fun a b => iconKey a ≤ iconKey b) :=
  ⟨fun _ _ _ hab hbc => Nat.le_trans hab hbc⟩

/-- Bytes of an ASCII string, for building header values. -/
def strBytes (s : String) : List Nat := s.data.map Char.toNat

/-- A simple concrete URL-join capability: plain concatenation. -/
def joinSimple : Url → String → Option Url := fun base ref => some (base ++ ref)

/-- A simple concrete mime parser recognising only the literal `image/png`. -/
def mimeFromStrSimple : String → Option Mime :=
  fun s => if s = "image/png" then some IMAGE_PNG else none

/-- An environment whose per-icon transport always fails. -/
def envDown : Env :=
  { get := fun _ => none, parseDoc := fun _ => [],
    mimeFromStr := mimeFromStrSimple, decode := fun _ _ => none, join := joinSimple }

/-- A successful PNG response fixture. -/
def respOk : Response :=
  { statusSuccess := true, contentType := some (strBytes "image/png"),
    body := some [1, 2], text := none }

/-- An environment where every icon fetch succeeds as a 16 by 16 PNG. -/
def envOk : Env :=
  { get := fun _ => some respOk, parseDoc := fun _ => [],
    mimeFromStr := mimeFromStrSimple, decode := fun _ _ => some (16, 16),
    join := joinSimple }

/-- A response whose Content-Type header holds a readable string that is not
a parseable MIME type. -/
def respBadMime : Response :=
  { statusSuccess := true, contentType := some (strBytes "bogus"),
    body := some [], text := none }

/-- An environment serving `respBadMime` for every URL. -/
def envBadMime : Env :=
  { get := fun _ => some respBadMime, parseDoc := fun _ => [],
    mimeFromStr := mimeFromStrSimple, decode := fun _ _ => none, join := joinSimple }

/-- A response whose body could not be decoded as text. -/
def respNoText : Response :=
  { statusSuccess := true, contentType := none, body := none, text := none }

/-- An environment whose document GET succeeds but text decoding fails. -/
def envNoText : Env :=
  { get := fun _ => some respNoText, parseDoc := fun _ => [],
    mimeFromStr := mimeFromStrSimple, decode := fun _ _ => none, join := joinSimple }

/-- A link element declaring `sizes="32x32"`. -/
def elem32 : Element := { href := some "icon.png", sizes := some "32x32" }

/-- A scraper whose DOM holds the single element `elem32`. -/
def scraper32 : IconScraper :=
  { document_url := "http://example.com/", dom := some [elem32] }

/-- The candidate generated from `elem32`. -/
def icon32 : Icon :=
  { url := "http://example.com/icon.png", raw := none, mime_type := none,
    width := some 32, height := some 32 }

/-- A scraper with an absent DOM. -/
def scraperNoDom : IconScraper :=
  { document_url := "http://example.com/", dom := none }

/-- The default-path candidate under `joinSimple`. -/
def iconFav : Icon := Icon.from_url "http://example.com/favicon.ico"

/-- A 16 by 16 icon fixture. -/
def icon16 : Icon :=
  { url := "http://example.com/a.png", raw := none, mime_type := none,
    width := some 16, height := some 16 }

/-- A 512 by 512 icon fixture. -/
def icon512 : Icon :=
  { url := "http://example.com/b.png", raw := none, mime_type := none,
    width := some 512, height := some 512 }

/-- An icon whose declared dimensions overflow the 32-bit area product. -/
def iconHuge : Icon :=
  { url := "http://example.com/huge.png", raw := none, mime_type := none,
    width := some 65536, height := some 65536 }

/-- A 1 by 1 icon fixture. -/
def iconTiny : Icon :=
  { url := "http://example.com/tiny.png", raw := none, mime_type := none,
    width := some 1, height := some 1 }

/-! ### Claim theorems -/

/-- Claim C4: for every icon whose width and height are both already set,
`fetch_dimensions` succeeds immediately, performs no HTTP fetch or decode
(the result is the same for every environment), and modifies no field. -/
theorem fetch_dimensions_noop (env : Env) (i : Icon)
    (hw : i.width.isSome) (hh : i.height.isSome) :
    Icon.fetch_dimensions env i = (i, Except.ok ()) := by
  rcases Option.isSome_iff_exists.mp hw with ⟨w, hwe⟩
  rcases Option.isSome_iff_exists.mp hh with ⟨h, hhe⟩
  simp [Icon.fetch_dimensions, hwe, hhe]

/-- Witness for C4: the link-rel candidate generated from `sizes="32x32"`
carries declared dimensions 32 by 32, and resolving it is a no-op success
both under a dead network and under a live one. -/
theorem fetch_dimensions_noop_witness :
    LinkRelStrategy.get_guesses envDown scraper32 = [icon32]
    ∧ icon32.width = some 32 ∧ icon32.height = some 32
    ∧ Icon.fetch_dimensions envDown icon32 = (icon32, Except.ok ())
    ∧ Icon.fetch_dimensions envOk icon32 = (icon32, Except.ok ()) :=
  ⟨by decide, rfl, rfl,
    fetch_dimensions_noop envDown icon32 (by decide) (by decide),
    fetch_dimensions_noop envOk icon32 (by decide) (by decide)⟩

/-- Claim C10: content-type recognition accepts any MIME type whose subtype
is `x-icon` or `vnd.microsoft.icon` regardless of top-level type,
canonicalising it to `image/x-icon` with the ICO format, while PNG, JPEG and
GIF are recognised only by exact equality with the corresponding `mime`
constants; every other type is rejected. -/
theorem parse_image_format_characterisation (m : Mime) :
    ((m.sub = "x-icon" ∨ m.sub = "vnd.microsoft.icon") →
      m.parse_image_format = some (mimeXIcon, ImageFormat.Ico))
    ∧ (m.parse_image_format = some (m, ImageFormat.Png) ↔ m = IMAGE_PNG)
    ∧ (m.parse_image_format = some (m, ImageFormat.Jpeg) ↔ m = IMAGE_JPEG)
    ∧ (m.parse_image_format = some (m, ImageFormat.Gif) ↔ m = IMAGE_GIF)
    ∧ (m.parse_image_format = none ↔
        (m ≠ IMAGE_PNG ∧ m ≠ IMAGE_JPEG ∧ m ≠ IMAGE_GIF ∧
          m.sub ≠ "x-icon" ∧ m.sub ≠ "vnd.microsoft.icon")) := by
  unfold Mime.parse_image_format
  split_ifs with h1 h2 h3 h4
  · subst h1; decide
  · subst h2; decide
  · subst h3; decide
  · refine ⟨fun _ => rfl, ?_, ?_, ?_, ?_⟩
    · exact ⟨fun hc => by simp at hc, fun hc => absurd hc h1⟩
    · exact ⟨fun hc => by simp at hc, fun hc => absurd hc h2⟩
    · exact ⟨fun hc => by simp at hc, fun hc => absurd hc h3⟩
    · constructor
      · intro hc; simp at hc
      · rintro ⟨_, _, _, hx, hv⟩
        rcases h4 with h | h
        · exact absurd h hx
        · exact absurd h hv
  · push_neg at h4
    refine ⟨?_, ?_, ?_, ?_, ?_⟩
    · intro hc
      rcases hc with h | h
      · exact absurd h h4.1
      · exact absurd h h4.2
    · exact ⟨fun hc => hc.elim, fun hc => absurd hc h1⟩
    · exact ⟨fun hc => hc.elim, fun hc => absurd hc h2⟩
    · exact ⟨fun hc => hc.elim, fun hc => absurd hc h3⟩
    · exact ⟨fun _ => ⟨h1, h2, h3, h4.1, h4.2⟩, fun _ => rfl⟩

/-- Witness for C10: `text/x-icon` is accepted and canonicalised to
`image/x-icon` with the ICO decode format. -/
theorem parse_image_format_characterisation_witness :
    Mime.parse_image_format { top := "text", sub := "x-icon", params := [] }
      = some (mimeXIcon, ImageFormat.Ico) :=
  (parse_image_format_characterisation
    { top := "text", sub := "x-icon", params := [] }).1 (Or.inl rfl)

/-- Counterexample for C5: a present Content-Type header that is a readable
string but not a parseable MIME type fails with `BadContentType`, not with
the "no content type" error the claim requires. -/
theorem content_type_unparseable_counterexample :
    (Icon.fetch envBadMime iconFav).2 = Except.error FetchError.badContentType
    ∧ FetchError.badContentType ≠ FetchError.noContentType := by decide

/-- Claim C5 as amended: a missing Content-Type header and a header whose
bytes cannot be read as a string both fail with the "no content type" error;
a header that reads as a string but that the MIME parser rejects fails with
the "bad content type" error instead. -/
theorem content_type_classification (env : Env) (i : Icon) (r : Response)
    (hraw : i.raw = none) (hget : env.get i.url = some r)
    (hst : r.statusSuccess = true) :
    (r.contentType = none →
      (Icon.fetch env i).2 = Except.error FetchError.noContentType)
    ∧ (∀ bs, r.contentType = some bs → header_to_str bs = none →
      (Icon.fetch env i).2 = Except.error FetchError.noContentType)
    ∧ (∀ bs s, r.contentType = some bs → header_to_str bs = some s →
        env.mimeFromStr s = none →
      (Icon.fetch env i).2 = Except.error FetchError.badContentType) := by
  refine ⟨?_, ?_, ?_⟩
  · intro hct
    simp [Icon.fetch, hraw, hget, hst, hct]
  · intro bs hct hstr
    simp [Icon.fetch, hraw, hget, hst, hct, hstr]
  · intro bs s hct hstr hmime
    simp [Icon.fetch, hraw, hget, hst, hct, hstr, hmime]

/-- Witness for C5 (amended): the concrete unparseable header "bogus" is
classified as `BadContentType`. -/
theorem content_type_classification_witness :
    (Icon.fetch envBadMime iconFav).2 = Except.error FetchError.badContentType :=
  (content_type_classification envBadMime iconFav respBadMime rfl rfl rfl).2.2
    (strBytes "bogus") "bogus" rfl (by decide) (by decide)

/-- Counterexample for C2: when the initial document GET fails at the
transport level, `from_http` panics (modelled by `none`) instead of
constructing a scraper with an absent DOM, so discovery does fail outright. -/
theorem from_http_transport_counterexample :
    IconScraper.from_http envDown "http://example.com/" = none
    ∧ (IconScraper.from_http envDown "http://example.com/").isSome = false := by
  decide

/-- Claim C2 as amended: `from_http` aborts (panics) exactly when the initial
GET fails at the transport level; when the GET returns a response, the
scraper is always constructed, with the DOM present exactly when the body
could be decoded as text (parsing itself never fails). -/
theorem from_http_classification (env : Env) (u : Url) :
    (env.get u = none → IconScraper.from_http env u = none)
    ∧ (∀ r, env.get u = some r →
        IconScraper.from_http env u
          = some { document_url := u, dom := r.text.map env.parseDoc }) := by
  constructor
  · intro h
    simp [IconScraper.from_http, h]
  · intro r h
    simp [IconScraper.from_http, h]

/-- Witness for C2 (amended): a dead transport aborts, while a response whose
text decoding failed yields a scraper with an absent DOM. -/
theorem from_http_classification_witness :
    IconScraper.from_http envDown "http://example.com/" = none
    ∧ IconScraper.from_http envNoText "http://example.com/"
        = some { document_url := "http://example.com/", dom := none } :=
  ⟨(from_http_classification envDown "http://example.com/").1 rfl,
    (from_http_classification envNoText "http://example.com/").2 respNoText rfl⟩

/-- A link element whose `sizes` value has a non-numeric first token followed
by two numeric tokens. -/
def elemMixed : Element := { href := some "icon.png", sizes := some "ax32x64" }

/-- A scraper whose DOM holds the single element `elemMixed`. -/
def scraperMixed : IconScraper :=
  { document_url := "http://example.com/", dom := some [elemMixed] }

/-- The candidate the code generates from `elemMixed`. -/
def iconMixed : Icon :=
  { url := "http://example.com/icon.png", raw := none, mime_type := none,
    width := some 32, height := some 64 }

/-- Counterexample for C6: on `sizes="ax32x64"` the first of the first two
tokens ("a") does not parse, so the claim demands both dimensions absent,
but the code's `filter_map` skips the failing token and sets width 32 and
height 64 from the first two tokens that do parse. -/
theorem sizes_first_two_tokens_counterexample :
    LinkRelStrategy.get_guesses envDown scraperMixed = [iconMixed]
    ∧ parse_sizes "ax32x64" = (some 32, some 64)
    ∧ parse_sizes_claim "ax32x64" = (none, none)
    ∧ parse_u32 "a".data = none
    ∧ parse_sizes "ax32x64" ≠ parse_sizes_claim "ax32x64" := by decide

/-- Claim C6 as amended: the generator splits the `sizes` value on the
literal character `x`, parses each token as an unsigned integer discarding
the tokens that fail, and takes the first two successfully parsed values;
declared width and height are set if and only if at least two tokens parse,
and never only one of the two. -/
theorem get_guesses_sizes_semantics (env : Env) (s : IconScraper)
    (elems : List Element) (hdom : s.dom = some elems) :
    (∀ i ∈ LinkRelStrategy.get_guesses env s, (i.width.isSome ↔ i.height.isSome))
    ∧ (∀ e ∈ elems, ∀ href u, e.href = some href →
        env.join s.document_url href = some u →
        ({ url := u, raw := none, mime_type := none,
           width := (parse_sizes (e.sizes.getD "")).1,
           height := (parse_sizes (e.sizes.getD "")).2 } : Icon)
          ∈ LinkRelStrategy.get_guesses env s)
    ∧ (∀ str, parse_sizes str =
        match (splitChar 'x' str.data).filterMap parse_u32 with
        | x :: y :: _ => (some x, some y)
        | _ => (none, none)) := by
  refine ⟨?_, ?_, fun _ => rfl⟩
  · intro i hi
    unfold LinkRelStrategy.get_guesses at hi
    rw [hdom] at hi
    rcases List.mem_filterMap.mp hi with ⟨e, _, hfe⟩
    rcases he : e.href with _ | href
    · simp [he] at hfe
    · rcases hj : env.join s.document_url href with _ | u
      · simp [he, hj] at hfe
      · simp [he, hj] at hfe
        rw [← hfe]
        exact parse_sizes_both (e.sizes.getD "")
  · intro e he href u hhref hj
    unfold LinkRelStrategy.get_guesses
    rw [hdom]
    exact List.mem_filterMap.mpr ⟨e, he, by simp [hhref, hj]⟩

/-- Witness for C6 (amended): applied to the `sizes="32x32"` element, the
generated candidate carries width and height 32. -/
theorem get_guesses_sizes_semantics_witness :
    ({ url := "http://example.com/" ++ "icon.png", raw := none, mime_type := none,
       width := (parse_sizes ((elem32.sizes).getD "")).1,
       height := (parse_sizes ((elem32.sizes).getD "")).2 } : Icon)
      ∈ LinkRelStrategy.get_guesses envDown scraper32 :=
  (get_guesses_sizes_semantics envDown scraper32 [elem32] rfl).2.1
    elem32 (List.mem_singleton.mpr rfl) "icon.png"
    ("http://example.com/" ++ "icon.png") rfl rfl

/-- Claim C9: the sort comparator of `from_raw` computes each icon's area as
a 32-bit product, so an icon whose true area is `2 ^ 32` (reachable, since
declared sizes from markup are stored directly into width and height) gets
key `0`, sorts below a 1 by 1 icon, and both `largest` and the `at_least`
fallback pick the 1 by 1 icon although its true area is smaller. -/
theorem sort_key_wraps_u32 :
    parse_sizes "65536x65536" = (some 65536, some 65536)
    ∧ iconKey iconHuge = 0
    ∧ trueArea iconHuge = 2 ^ 32
    ∧ iconKey iconTiny = 1
    ∧ trueArea iconTiny = 1
    ∧ (IconCollection.from_raw [iconHuge, iconTiny]).icons = [iconHuge, iconTiny]
    ∧ (IconCollection.from_raw [iconHuge, iconTiny]).largest = some iconTiny
    ∧ (IconCollection.from_raw [iconHuge, iconTiny]).at_least 100000 100000
        = some iconTiny
    ∧ trueArea iconTiny < trueArea iconHuge := by decide

theorem fetch_cases (env : Env) (i : Icon) (hraw : i.raw = none) :
    (∃ e, Icon.fetch env i = (i, Except.error e))
    ∨ (∃ w h bytes m, Icon.fetch env i =
        ({ i with width := some w, height := some h,
                  raw := some bytes, mime_type := some m }, Except.ok ())) := by
  cases hget : env.get i.url with
  | none => exact Or.inl ⟨FetchError.transport, by simp [Icon.fetch, hraw, hget]⟩
  | some r =>
    by_cases hst : r.statusSuccess
    · cases hct : r.contentType with
      | none =>
        exact Or.inl ⟨FetchError.noContentType, by simp [Icon.fetch, hraw, hget, hst, hct]⟩
      | some bs =>
        cases hstr : header_to_str bs with
        | none =>
          exact Or.inl ⟨FetchError.noContentType,
            by simp [Icon.fetch, hraw, hget, hst, hct, hstr]⟩
        | some s =>
          cases hmime : env.mimeFromStr s with
          | none =>
            exact Or.inl ⟨FetchError.badContentType,
              by simp [Icon.fetch, hraw, hget, hst, hct, hstr, hmime]⟩
          | some m =>
            cases hfmt : m.parse_image_format with
            | none =>
              exact Or.inl ⟨FetchError.badContentType,
                by simp [Icon.fetch, hraw, hget, hst, hct, hstr, hmime, hfmt]⟩
            | some p =>
              obtain ⟨bm, fmt⟩ := p
              cases hbody : r.body with
              | none =>
                exact Or.inl ⟨FetchError.transport,
                  by simp [Icon.fetch, hraw, hget, hst, hct, hstr, hmime, hfmt, hbody]⟩
              | some bytes =>
                cases hdec : env.decode bytes fmt with
                | none =>
                  exact Or.inl ⟨FetchError.decodeError,
                    by simp [Icon.fetch, hraw, hget, hst, hct, hstr, hmime, hfmt, hbody, hdec]⟩
                | some wh =>
                  obtain ⟨w, h⟩ := wh
                  exact Or.inr ⟨w, h, bytes, bm,
                    by simp [Icon.fetch, hraw, hget, hst, hct, hstr, hmime, hfmt, hbody, hdec]⟩
    · exact Or.inl ⟨FetchError.badStatusCode, by simp [Icon.fetch, hraw, hget, hst]⟩

/-- Claim C7: starting from a resolver-eligible icon (`raw` absent, as every
generator-produced candidate is), any failing step of `fetch` leaves the icon
exactly as it was, and a successful `fetch` sets all four derived fields
together. -/
theorem fetch_atomic (env : Env) (i : Icon) (hraw : i.raw = none) :
    (∀ e, (Icon.fetch env i).2 = Except.error e → (Icon.fetch env i).1 = i)
    ∧ ((Icon.fetch env i).2 = Except.ok () →
        ((Icon.fetch env i).1.raw.isSome ∧ (Icon.fetch env i).1.mime_type.isSome
          ∧ (Icon.fetch env i).1.width.isSome ∧ (Icon.fetch env i).1.height.isSome)) := by
  rcases fetch_cases env i hraw with ⟨e, he⟩ | ⟨w, h, bytes, m, hok⟩
  · rw [he]
    exact ⟨fun _ _ => rfl, fun hc => by simp at hc⟩
  · rw [hok]
    constructor
    · intro e2 h2
      simp at h2
    · intro _
      simp

/-- Witness for C7: a dead transport leaves the default-path candidate
unchanged, and a successful PNG fetch populates all four derived fields. -/
theorem fetch_atomic_witness :
    (Icon.fetch envDown iconFav).1 = iconFav
    ∧ ((Icon.fetch envOk iconFav).1.raw.isSome
        ∧ (Icon.fetch envOk iconFav).1.mime_type.isSome
        ∧ (Icon.fetch envOk iconFav).1.width.isSome
        ∧ (Icon.fetch envOk iconFav).1.height.isSome) :=
  ⟨(fetch_atomic envDown iconFav rfl).1 FetchError.transport (by decide),
    (fetch_atomic envOk iconFav rfl).2 (by decide)⟩

/-- Claim C1: `at_least` returns the first icon of the ascending-area order
satisfying both bounds, with the overall largest icon as fallback, and is
absent exactly on the empty collection. -/
theorem at_least_characterisation (icons : List Icon) (w h : Nat)
    (hdims : ∀ i ∈ icons, i.width.isSome ∧ i.height.isSome) :
    ((IconCollection.from_raw icons).at_least w h
        = ((IconCollection.from_raw icons).icons.find?
            (fun i => decide (w ≤ i.width.getD 0 ∧ h ≤ i.height.getD 0))).or
          ((IconCollection.from_raw icons).icons.getLast?))
    ∧ List.Sorted (fun a b => iconKey a ≤ iconKey b)
        (IconCollection.from_raw icons).icons
    ∧ (∀ m, (IconCollection.from_raw icons).icons.getLast? = some m →
        ∀ i ∈ icons, iconKey i ≤ iconKey m)
    ∧ ((IconCollection.from_raw icons).at_least w h = none ↔ icons = []) := by
  have hpred : (fun i : Icon => !(decide (i.width.getD 0 < w ∨ i.height.getD 0 < h)))
      = (fun i : Icon => decide (w ≤ i.width.getD 0 ∧ h ≤ i.height.getD 0)) := by
    funext i
    rw [← decide_not]
    apply decide_eq_decide.mpr
    omega
  have hperm : (IconCollection.from_raw icons).icons.Perm icons :=
    List.perm_insertionSort _ _
  have hA : (IconCollection.from_raw icons).at_least w h
      = ((IconCollection.from_raw icons).icons.find?
          (fun i => decide (w ≤ i.width.getD 0 ∧ h ≤ i.height.getD 0))).or
        ((IconCollection.from_raw icons).icons.getLast?) := by
    show ((IconCollection.from_raw icons).icons.dropLast.dropWhile
        (fun i => decide (i.width.getD 0 < w ∨ i.height.getD 0 < h))).head?.or
        ((IconCollection.from_raw icons).icons.getLast?) = _
    rw [head?_dropWhile, hpred, find?_dropLast_or]
  refine ⟨hA, List.sorted_insertionSort _ _, ?_, ?_⟩
  · intro m hm i hi
    exact pairwise_rel_getLast? (R := fun a b : Icon => iconKey a ≤ iconKey b)
      (fun a => Nat.le_refl (iconKey a)) _ m
      (List.sorted_insertionSort _ _) hm i (hperm.mem_iff.mpr hi)
  · constructor
    · intro hnone
      rw [hA] at hnone
      rcases Option.or_eq_none.mp hnone with ⟨_, hlast⟩
      have hl : (IconCollection.from_raw icons).icons = [] :=
        List.getLast?_eq_none_iff.mp hlast
      have h2 := hperm
      rw [hl] at h2
      exact h2.symm.eq_nil
    · rintro rfl
      rfl

/-- Witness for C1: on the spec's 16/32/512 example, `at_least 48 48` obeys
the characterisation and returns the 512 by 512 icon. -/
theorem at_least_characterisation_witness :
    (∀ i ∈ [icon512, icon16, icon32], i.width.isSome ∧ i.height.isSome)
    ∧ ((IconCollection.from_raw [icon512, icon16, icon32]).at_least 48 48
        = ((IconCollection.from_raw [icon512, icon16, icon32]).icons.find?
            (fun i => decide (48 ≤ i.width.getD 0 ∧ 48 ≤ i.height.getD 0))).or
          ((IconCollection.from_raw [icon512, icon16, icon32]).icons.getLast?))
    ∧ (IconCollection.from_raw [icon512, icon16, icon32]).at_least 48 48
        = some icon512 :=
  ⟨by decide,
    (at_least_characterisation [icon512, icon16, icon32] 48 48 (by decide)).1,
    by decide⟩

/-- Claim C8: `largest` is absent exactly on the empty collection, is the
last element of the ascending-area order, and any returned icon is a member
whose 32-bit area key is maximal. -/
theorem largest_characterisation (icons : List Icon)
    (hdims : ∀ i ∈ icons, i.width.isSome ∧ i.height.isSome) :
    ((IconCollection.from_raw icons).largest = none ↔ icons = [])
    ∧ ((IconCollection.from_raw icons).largest
        = (IconCollection.from_raw icons).icons.getLast?)
    ∧ (∀ m, (IconCollection.from_raw icons).largest = some m →
        m ∈ icons ∧ ∀ i ∈ icons, iconKey i ≤ iconKey m) := by
  have hperm : (IconCollection.from_raw icons).icons.Perm icons :=
    List.perm_insertionSort _ _
  refine ⟨?_, rfl, ?_⟩
  · constructor
    · intro hnone
      have hl : (IconCollection.from_raw icons).icons = [] :=
        List.getLast?_eq_none_iff.mp hnone
      have h2 := hperm
      rw [hl] at h2
      exact h2.symm.eq_nil
    · rintro rfl
      rfl
  · intro m hm
    constructor
    · exact hperm.mem_iff.mp (List.mem_of_mem_getLast? hm)
    · intro i hi
      exact pairwise_rel_getLast? (R := fun a b : Icon => iconKey a ≤ iconKey b)
        (fun a => Nat.le_refl (iconKey a)) _ m
        (List.sorted_insertionSort _ _) hm i (hperm.mem_iff.mpr hi)

/-- Witness for C8: on the 512/16/32 example the returned icon is a member
with maximal key. -/
theorem largest_characterisation_witness :
    icon512 ∈ [icon512, icon16, icon32]
    ∧ ∀ i ∈ [icon512, icon16, icon32], iconKey i ≤ iconKey icon512 :=
  (largest_characterisation [icon512, icon16, icon32] (by decide)).2.2
    icon512 (by decide)

theorem get_guesses_raw_none (env : Env) (s : IconScraper) :
    ∀ i ∈ LinkRelStrategy.get_guesses env s, i.raw = none := by
  intro i hi
  unfold LinkRelStrategy.get_guesses at hi
  cases hdom : s.dom with
  | none =>
    rw [hdom] at hi
    simp at hi
  | some elems =>
    rw [hdom] at hi
    rcases List.mem_filterMap.mp hi with ⟨e, _, hfe⟩
    rcases he : e.href with _ | href
    · simp [he] at hfe
    · rcases hj : env.join s.document_url href with _ | u
      · simp [he, hj] at hfe
      · simp [he, hj] at hfe
        rw [← hfe]

theorem fetch_dimensions_ok_dims (env : Env) (cand : Icon) (hraw : cand.raw = none)
    (hok : (Icon.fetch_dimensions env cand).2 = Except.ok ()) :
    (Icon.fetch_dimensions env cand).1.width.isSome
    ∧ (Icon.fetch_dimensions env cand).1.height.isSome := by
  rcases hw : cand.width with _ | wv <;> rcases hh : cand.height with _ | hv <;>
    simp only [Icon.fetch_dimensions, hw, hh] at hok ⊢
  · rcases fetch_cases env cand hraw with ⟨e, he⟩ | ⟨w2, h2, bts, m2, hfok⟩
    · rw [he] at hok
      simp at hok
    · rw [hfok]
      simp
  · rcases fetch_cases env cand hraw with ⟨e, he⟩ | ⟨w2, h2, bts, m2, hfok⟩
    · rw [he] at hok
      simp at hok
    · rw [hfok]
      simp
  · rcases fetch_cases env cand hraw with ⟨e, he⟩ | ⟨w2, h2, bts, m2, hfok⟩
    · rw [he] at hok
      simp at hok
    · rw [hfok]
      simp
  · simp

/-- Claim C3: discovery never aborts on per-candidate failures; it resolves
the chained link-rel and default-path candidates, keeps exactly those whose
resolution succeeded, and every icon in the resulting collection carries
both dimensions. -/
theorem fetch_icons_characterisation (env : Env) (s : IconScraper) (fav : Url)
    (hjoin : env.join s.document_url "/favicon.ico" = some fav) :
    ∃ c, IconScraper.fetch_icons env s = some c
      ∧ (∀ i ∈ c.icons, i.width.isSome ∧ i.height.isSome)
      ∧ c.icons.Perm
          ((LinkRelStrategy.get_guesses env s ++ [Icon.from_url fav]).filterMap
            (fun cand =>
              match Icon.fetch_dimensions env cand with
              | (j, Except.ok _) => some j
              | (_, Except.error _) => none)) := by
  have hfi : IconScraper.fetch_icons env s = some (IconCollection.from_raw
      ((LinkRelStrategy.get_guesses env s ++ [Icon.from_url fav]).filterMap
        (fun cand =>
          match Icon.fetch_dimensions env cand with
          | (j, Except.ok _) => some j
          | (_, Except.error _) => none))) := by
    simp [IconScraper.fetch_icons, DefaultFaviconPathStrategy.get_guesses, hjoin]
  refine ⟨_, hfi, ?_, List.perm_insertionSort _ _⟩
  intro i hi
  have hperm : (IconCollection.from_raw
      ((LinkRelStrategy.get_guesses env s ++ [Icon.from_url fav]).filterMap
        (fun cand =>
          match Icon.fetch_dimensions env cand with
          | (j, Except.ok _) => some j
          | (_, Except.error _) => none))).icons.Perm _ :=
    List.perm_insertionSort _ _
  rcases List.mem_filterMap.mp (hperm.mem_iff.mp hi) with ⟨cand, hcand, hmatch⟩
  have hraw : cand.raw = none := by
    rcases List.mem_append.mp hcand with hl | hr
    · exact get_guesses_raw_none env s cand hl
    · rw [List.mem_singleton.mp hr]
      rfl
  rcases hfd : Icon.fetch_dimensions env cand with ⟨j, r⟩
  cases r with
  | error e =>
    rw [hfd] at hmatch
    simp at hmatch
  | ok u =>
    cases u
    rw [hfd] at hmatch
    simp only [Option.some.injEq] at hmatch
    have hd := fetch_dimensions_ok_dims env cand hraw (by rw [hfd])
    rw [hfd] at hd
    rw [← hmatch]
    exact hd

/-- Witness for C3: with a live environment and an absent DOM, discovery
produces a collection. -/
theorem fetch_icons_characterisation_witness :
    (IconScraper.fetch_icons envOk scraperNoDom).isSome = true := by
  rcases fetch_icons_characterisation envOk scraperNoDom
      ("http://example.com/" ++ "/favicon.ico") rfl with ⟨c, hc, _, _⟩
  rw [hc]
  rfl
